import Mathlib

/-!
Verification of the persistence-facade repository: a uniform CRUD layer over
Redis, PostgreSQL and Supabase backends, selected by connection-URI scheme.

Modelling conventions:
* JavaScript objects that serve as process documents are modelled by `Doc`:
  the `id` field (`none` models an absent / `undefined` id) plus the remaining
  key-value fields as an association list of JSON-like values.
* `JSON.stringify` / `JSON.parse` on the wire are modelled as exact
  round-trips, so the store models below hold `Doc` values directly.
* `uuidv4()` is modelled as a deterministic fresh-identifier supply indexed by
  a generator counter `gen`; real UUID-v4 strings are random and non-empty.
* Callback-style completion (`callback(err, result)`) is modelled by the list
  of callback invocations an operation performs (`Cb α`); the backends are
  modelled as healthy (no connectivity failures), so the only errors in the
  model are the ones raised by the adapter code itself and by the store's
  integrity constraints (primary-key violations).
* Database time (`NOW()` / `new Date()`) is an explicit `now : Nat` parameter.
-/

namespace Bpmn

/-- JSON-like values: the schemaless field values of a process document. -/
inductive JVal where
  | jnull
  | jbool (b : Bool)
  | jnum (n : Int)
  | jstr (s : String)
  | jarr (elems : List JVal)
  | jobj (fs : List (String × JVal))

/-- A process document: the `id` field (`none` models JS `undefined`/absent)
together with the remaining key-value fields. -/
structure Doc where
  id : Option String
  fields : List (String × JVal)

/-- Look up a field of the document body by key. -/
def Doc.field (d : Doc) (k : String) : Option JVal :=
  match d.fields.find? fun f => f.1 = k with
  | none => none
  | some f => some f.2

/-- Error taxonomy of the persistence layer. -/
inductive PErr where
  | configuration (msg : String)
  | validation (msg : String)
  | store (msg : String)
deriving DecidableEq

/-- One invocation of a completion callback `callback(err, result)`.
`res = none` models calling back without a result argument. -/
structure CbCall (α : Type) where
  err : Option PErr
  res : Option α

/-- The sequence of callback invocations an operation performs, in order. -/
abbrev Cb (α : Type) : Type := List (CbCall α)

/-- `callback(null, x)`: success carrying result `x`. -/
def cbOk {α : Type} (x : α) : Cb α := [⟨none, some x⟩]

/-- `callback(err)`: failure carrying error `e` and no result. -/
def cbErr {α : Type} (e : PErr) : Cb α := [⟨some e, none⟩]

/-- `uuidv4()` modelled as a deterministic fresh-identifier supply. -/
def uuidv4 (gen : Nat) : String := "uuid-" ++ toString gen

/-- JS truthiness of the `id` field: `undefined`, `null` and the empty
string are falsy. -/
def idTruthy (i : Option String) : Bool :=
  match i with
  | none => false
  | some s => s ≠ ""

/-- `doc.id || uuidv4()`: keep a truthy id, otherwise generate a fresh one
(JS `||` also replaces a present-but-empty-string id). -/
def orUuid (i : Option String) (gen : Nat) : String :=
  match i with
  | none => uuidv4 gen
  | some s => if s = "" then uuidv4 gen else s

/-! ## Key-value adapter: `RedisPersistency` (redis.js)

The store models the adapter's namespaced keyspace as an association list
from Redis keys to the (parsed) stored documents. -/

namespace RedisPersistency

/-- Redis `SET key value`: upsert at the key. -/
def setKey (entries : List (String × Doc)) (k : String) (v : Doc) :
    List (String × Doc) :=
  match entries with
  | [] => [(k, v)]
  | e :: rest => if e.1 = k then (k, v) :: rest else e :: setKey rest k v

/-- Redis `GET key`: `none` models a `null` reply for a missing key. -/
def getKey (entries : List (String × Doc)) (k : String) : Option Doc :=
  match entries with
  | [] => none
  | e :: rest => if e.1 = k then some e.2 else getKey rest k

/-- Redis `DEL key`: deleting a missing key is a no-op. -/
def delKey (entries : List (String × Doc)) (k : String) :
    List (String × Doc) :=
  match entries with
  | [] => []
  | e :: rest => if e.1 = k then rest else e :: delKey rest k

/-- The adapter's keyspace: every write below uses a
`process_instance:`-prefixed key. -/
structure Store where
  entries : List (String × Doc)

/-- Output of `save`: the callback invocations, the store after the call, and
the caller's document object after the in-place `doc.id = id` assignment. -/
structure SaveOut where
  calls : Cb Doc
  store : Store
  callerDoc : Doc

/-- `save(doc, callback)`:
`const id = doc.id || uuidv4(); doc.id = id;`
`await setAsync('process_instance:' + id, JSON.stringify(doc));`
`callback(null, doc)`. -/
def save (gen : Nat) (doc : Doc) (st : Store) : SaveOut :=
  let i := orUuid doc.id gen
  let doc1 : Doc := { doc with id := some i }
  let key := "process_instance:" ++ i
  { calls := cbOk doc1
    store := { entries := setKey st.entries key doc1 }
    callerDoc := doc1 }

/-- `get(id, callback)`: `GET` the namespaced key; a `null` reply is passed
through as `callback(null, null)`; otherwise the parsed document is returned.
(`if (!data)` also fires on an empty string, but `JSON.stringify` never
produces one.) -/
def get (i : String) (st : Store) : Cb (Option Doc) × Store :=
  let key := "process_instance:" ++ i
  match getKey st.entries key with
  | none => (cbOk none, st)
  | some d => (cbOk (some d), st)

/-- `update(doc, callback)`: `if (!doc.id) throw Error(...)` (caught and
passed to the callback), otherwise `SET` the namespaced key — an unconditional
upsert, with no existence check. -/
def update (doc : Doc) (st : Store) : Cb Doc × Store :=
  match doc.id with
  | none => (cbErr (.validation "Document must have an id to be updated."), st)
  | some s =>
    if s = "" then
      (cbErr (.validation "Document must have an id to be updated."), st)
    else
      let key := "process_instance:" ++ s
      (cbOk doc, { entries := setKey st.entries key doc })

/-- `remove(id, callback)`: `DEL` the namespaced key, then `callback(null)` —
the void success is modelled as a unit result. -/
def remove (i : String) (st : Store) : Cb Unit × Store :=
  let key := "process_instance:" ++ i
  (cbOk (), { entries := delKey st.entries key })

/-- `list(callback)`: `KEYS 'process_instance:*'`, early `callback(null, [])`
when no keys match, otherwise `MGET` all keys and parse each value. -/
def list (st : Store) : Cb (List Doc) × Store :=
  let keys := st.entries.map Prod.fst
  if keys.length = 0 then (cbOk [], st)
  else (cbOk (st.entries.map Prod.snd), st)

end RedisPersistency

/-! ## Relational adapter: `PostgresPersistency` (postgresql.js)

The table `process_instances` (schema file: `id` primary key, `doc` JSONB,
`created_at`/`updated_at` defaulting to `NOW()`, with a trigger refreshing
`updated_at` on every `UPDATE`) is modelled as a list of rows; the five SQL
statements the adapter issues are interpreted over it. -/

namespace PostgresPersistency

/-- One row of `process_instances`. -/
structure Row where
  id : String
  doc : Doc
  created_at : Nat
  updated_at : Nat

/-- The table `process_instances`. -/
structure Store where
  rows : List Row

/-- Output of `save`: callback invocations, table after the call, and the
caller's document after the in-place `doc.id = id` assignment. -/
structure SaveOut where
  calls : Cb (Option Row)
  store : Store
  callerDoc : Doc

/-- `save(doc, callback)`:
`const id = doc.id || uuidv4(); doc.id = id;`
`INSERT INTO process_instances (id, doc) VALUES ($1, $2) RETURNING *` —
a primary-key violation surfaces as a store error; on success the timestamp
defaults fire and the returned row is `result.rows[0]`. -/
def save (gen now : Nat) (doc : Doc) (st : Store) : SaveOut :=
  let i := orUuid doc.id gen
  let doc1 : Doc := { doc with id := some i }
  if st.rows.any fun r => r.id = i then
    { calls := cbErr (.store "duplicate key value violates unique constraint")
      store := st
      callerDoc := doc1 }
  else
    let row : Row := { id := i, doc := doc1, created_at := now, updated_at := now }
    { calls := cbOk ((([row] : List Row)).head?)
      store := { rows := st.rows ++ [row] }
      callerDoc := doc1 }

/-- `get(id, callback)`:
`SELECT * FROM process_instances WHERE id = $1`; the callback receives
`result.rows[0]`, which is `undefined` (modelled `none`) when no row matches. -/
def get (i : String) (st : Store) : Cb (Option Row) × Store :=
  (cbOk ((st.rows.filter fun r => r.id = i).head?), st)

/-- `update(doc, callback)`: `if (!doc.id) throw Error(...)` (caught, passed to
the callback), otherwise
`UPDATE process_instances SET doc = $1, updated_at = NOW() WHERE id = $2 RETURNING *`;
the callback receives `result.rows[0]`, which is `undefined` (modelled `none`)
when no row has that id — the statement succeeds with zero rows updated. -/
def update (now : Nat) (doc : Doc) (st : Store) : Cb (Option Row) × Store :=
  match doc.id with
  | none => (cbErr (.validation "Document must have an id to be updated."), st)
  | some s =>
    if s = "" then
      (cbErr (.validation "Document must have an id to be updated."), st)
    else
      let rows1 := st.rows.map fun r =>
        if r.id = s then { r with doc := doc, updated_at := now } else r
      (cbOk ((rows1.filter fun r => r.id = s).head?), { rows := rows1 })

/-- `remove(id, callback)`: `DELETE FROM process_instances WHERE id = $1`,
then `callback(null)` — deleting a missing id affects zero rows and is not an
error. -/
def remove (i : String) (st : Store) : Cb Unit × Store :=
  (cbOk (), { rows := st.rows.filter fun r => r.id ≠ i })

/-- `list(callback)`: `SELECT * FROM process_instances`;
the callback receives `result.rows`. -/
def list (st : Store) : Cb (List Row) × Store :=
  (cbOk st.rows, st)

end PostgresPersistency

/-! ## Cloud-document adapter: `SupabasePersistency` (supabase.js)

Same table shape as the relational backend; the Supabase query-builder calls
return `{ data, error }`, and the adapter throws `error` (caught, passed to
the callback) whenever it is set. -/

namespace SupabasePersistency

/-- One row of the `process_instances` table. -/
structure Row where
  id : String
  doc : Doc
  created_at : Nat
  updated_at : Nat

/-- The `process_instances` table. -/
structure Store where
  rows : List Row

/-- Output of `save`: callback invocations, table after the call, and the
caller's document after the in-place `doc.id = id` assignment. -/
structure SaveOut where
  calls : Cb (Option Row)
  store : Store
  callerDoc : Doc

/-- `save(doc, callback)`:
`const id = doc.id || uuidv4(); doc.id = id;`
`.from('process_instances').insert([{ id, doc }]).select()` — a duplicate id
violates the primary key and comes back as `error` (thrown, then passed to the
callback); on success `data` holds the inserted row and the callback receives
`data[0]`. -/
def save (gen now : Nat) (doc : Doc) (st : Store) : SaveOut :=
  let i := orUuid doc.id gen
  let doc1 : Doc := { doc with id := some i }
  if st.rows.any fun r => r.id = i then
    { calls := cbErr (.store "duplicate key value violates unique constraint")
      store := st
      callerDoc := doc1 }
  else
    let row : Row := { id := i, doc := doc1, created_at := now, updated_at := now }
    { calls := cbOk ((([row] : List Row)).head?)
      store := { rows := st.rows ++ [row] }
      callerDoc := doc1 }

/-- `get(id, callback)`:
`.select('*').eq('id', id)` returns the matching rows in `data` with no error;
the callback receives `data[0]`, `undefined` (modelled `none`) when no row
matches. -/
def get (i : String) (st : Store) : Cb (Option Row) × Store :=
  (cbOk ((st.rows.filter fun r => r.id = i).head?), st)

/-- `update(doc, callback)`: `if (!doc.id) throw Error(...)` (caught, passed
to the callback), otherwise
`.update({ doc, updated_at: new Date().toISOString() }).eq('id', doc.id).select()`;
`data` holds the updated rows — empty, with no error, when no row has that
id — and the callback receives `data[0]`. -/
def update (now : Nat) (doc : Doc) (st : Store) : Cb (Option Row) × Store :=
  match doc.id with
  | none => (cbErr (.validation "Document must have an id to be updated."), st)
  | some s =>
    if s = "" then
      (cbErr (.validation "Document must have an id to be updated."), st)
    else
      let rows1 := st.rows.map fun r =>
        if r.id = s then { r with doc := doc, updated_at := now } else r
      (cbOk ((rows1.filter fun r => r.id = s).head?), { rows := rows1 })

/-- `remove(id, callback)`: `.delete().eq('id', id)`, then `callback(null)` —
deleting a missing id matches zero rows and is not an error. -/
def remove (i : String) (st : Store) : Cb Unit × Store :=
  (cbOk (), { rows := st.rows.filter fun r => r.id ≠ i })

/-- `list(callback)`: `.select('*')`; the callback receives `data`. -/
def list (st : Store) : Cb (List Row) × Store :=
  (cbOk st.rows, st)

end SupabasePersistency

/-! ## Facade: `Persistency` (index file in the repository)

The constructor validates `options.uri`, selects one backend class by URI
scheme prefix, and the prototype methods `persist`, `load`, `loadAll`, `close`
each invoke the identically named property of `this.implementation`. Dynamic
JS method dispatch is modelled by the lists of method names each adapter class
defines and the name the facade looks up. -/

namespace Persistency

/-- The backend classes the constructor can bind. -/
inductive Backend where
  | mongodb
  | postgres
  | supabase
  | redis
  | file
deriving DecidableEq

/-- Method names the `RedisPersistency` class defines (redis.js). -/
def redisMethodNames : List String := ["save", "get", "update", "remove", "list"]

/-- Method names the `PostgresPersistency` class defines (postgresql.js). -/
def postgresMethodNames : List String := ["save", "get", "update", "remove", "list"]

/-- Method names the `SupabasePersistency` class defines (supabase.js). -/
def supabaseMethodNames : List String := ["save", "get", "update", "remove", "list"]

/-- The method names the bound adapter class defines, for the adapter classes
whose source is in the repository (`file.js` and `mongodb.js` are external
collaborators). -/
def methodNames (b : Backend) : Option (List String) :=
  match b with
  | .redis => some redisMethodNames
  | .postgres => some postgresMethodNames
  | .supabase => some supabaseMethodNames
  | .mongodb => none
  | .file => none

end Persistency

/-! ## Auxiliary notions and lemmas -/

/-- An operation's callback trace reports an error somewhere. -/
def cbHasErr {α : Type} (c : Cb α) : Bool :=
  c.any fun call => call.err.isSome

/-- The completion discipline of claim C8: the callback was invoked exactly
once, carrying a result or an error but never both and never neither. -/
def oneShot {α : Type} (c : Cb α) : Prop :=
  c.length = 1 ∧ ∀ call ∈ c, call.err.isSome = !call.res.isSome

theorem oneShot_cbOk {α : Type} (x : α) : oneShot (cbOk x) := by
  refine ⟨rfl, ?_⟩
  intro call h
  simp only [cbOk, List.mem_singleton] at h
  subst h
  rfl

theorem oneShot_cbErr {α : Type} (e : PErr) : oneShot (cbErr (α := α) e) := by
  refine ⟨rfl, ?_⟩
  intro call h
  simp only [cbErr, List.mem_singleton] at h
  subst h
  rfl

theorem cbOk_inj {α : Type} {a b : α} (h : cbOk a = cbOk b) : a = b := by
  simpa [cbOk] using h

theorem cbErr_ne_cbOk {α : Type} (e : PErr) (x : α) : cbErr (α := α) e ≠ cbOk x := by
  simp [cbErr, cbOk]

theorem getKey_setKey_self (es : List (String × Doc)) (k : String) (v : Doc) :
    RedisPersistency.getKey (RedisPersistency.setKey es k v) k = some v := by
  induction es with
  | nil => simp [RedisPersistency.setKey, RedisPersistency.getKey]
  | cons e rest ih =>
    by_cases h : e.1 = k <;>
      simp [RedisPersistency.setKey, RedisPersistency.getKey, h, ih]

/-- A generated identifier is never the empty string. -/
theorem uuidv4_ne_empty (gen : Nat) : uuidv4 gen ≠ "" := by
  intro h
  have h2 := congrArg String.data h
  simp only [uuidv4, String.data_append] at h2
  have h3 : ("uuid-".data : List Char) = [] := List.append_eq_nil.mp h2 |>.1
  exact absurd h3 (by decide)

/-! ## Claims -/

/-- C5: for every document without an id, `update` on every adapter calls
back with `ValidationError` and leaves the stored state unchanged — the
throw happens before any backend call. -/
theorem c5_update_without_id_validation_error
    (doc : Doc) (h : doc.id = none) (now : Nat)
    (str : RedisPersistency.Store) (stp : PostgresPersistency.Store)
    (sts : SupabasePersistency.Store) :
    RedisPersistency.update doc str
        = (cbErr (.validation "Document must have an id to be updated."), str)
    ∧ PostgresPersistency.update now doc stp
        = (cbErr (.validation "Document must have an id to be updated."), stp)
    ∧ SupabasePersistency.update now doc sts
        = (cbErr (.validation "Document must have an id to be updated."), sts) := by
  refine ⟨?_, ?_, ?_⟩ <;>
    simp [RedisPersistency.update, PostgresPersistency.update,
      SupabasePersistency.update, h]

/-- C5 witness: the theorem applied to the id-less document `{}` on empty
stores. -/
theorem c5_update_without_id_validation_error_witness :
    RedisPersistency.update ⟨none, []⟩ ⟨[]⟩
      = (cbErr (.validation "Document must have an id to be updated."), (⟨[]⟩ : RedisPersistency.Store)) :=
  (c5_update_without_id_validation_error ⟨none, []⟩ rfl 0 ⟨[]⟩ ⟨[]⟩ ⟨[]⟩).1

/-- C6: `get` on an id that is not stored completes successfully on every
adapter with an explicit not-found result (`null` for Redis, `undefined` for
Postgres and Supabase, both modelled as `none`) rather than an error. -/
theorem c6_get_missing_id_not_found
    (i : String)
    (str : RedisPersistency.Store) (stp : PostgresPersistency.Store)
    (sts : SupabasePersistency.Store)
    (hr : RedisPersistency.getKey str.entries ("process_instance:" ++ i) = none)
    (hp : ∀ r ∈ stp.rows, r.id ≠ i)
    (hs : ∀ r ∈ sts.rows, r.id ≠ i) :
    (RedisPersistency.get i str).1 = cbOk none
    ∧ (PostgresPersistency.get i stp).1 = cbOk none
    ∧ (SupabasePersistency.get i sts).1 = cbOk none := by
  refine ⟨?_, ?_, ?_⟩
  · simp [RedisPersistency.get, hr]
  · have : stp.rows.filter (fun r => r.id = i) = [] :=
      List.filter_eq_nil_iff.mpr (by simpa using hp)
    simp [PostgresPersistency.get, this]
  · have : sts.rows.filter (fun r => r.id = i) = [] :=
      List.filter_eq_nil_iff.mpr (by simpa using hs)
    simp [SupabasePersistency.get, this]

/-- C6 witness: the theorem applied to the never-saved id `"missing"` on
empty stores. -/
theorem c6_get_missing_id_not_found_witness :
    (RedisPersistency.get "missing" ⟨[]⟩).1 = cbOk none
    ∧ (PostgresPersistency.get "missing" ⟨[]⟩).1 = cbOk none
    ∧ (SupabasePersistency.get "missing" ⟨[]⟩).1 = cbOk none :=
  c6_get_missing_id_not_found "missing" ⟨[]⟩ ⟨[]⟩ ⟨[]⟩ rfl
    (by intro r h; cases h) (by intro r h; cases h)

/-- C10 (implicit): for every document lacking an id, `save` on each adapter
assigns the generated identifier to the caller's own document object in place
before issuing the backend call, so after the call the caller's object carries
the new id; the key-value backend moreover persists exactly that mutated
object. -/
theorem c10_save_mutates_caller_doc
    (doc : Doc) (h : doc.id = none) (gen now : Nat)
    (str : RedisPersistency.Store) (stp : PostgresPersistency.Store)
    (sts : SupabasePersistency.Store) :
    (RedisPersistency.save gen doc str).callerDoc
        = { doc with id := some (uuidv4 gen) }
    ∧ (PostgresPersistency.save gen now doc stp).callerDoc
        = { doc with id := some (uuidv4 gen) }
    ∧ (SupabasePersistency.save gen now doc sts).callerDoc
        = { doc with id := some (uuidv4 gen) }
    ∧ RedisPersistency.getKey (RedisPersistency.save gen doc str).store.entries
        ("process_instance:" ++ uuidv4 gen)
        = some { doc with id := some (uuidv4 gen) } := by
  refine ⟨?_, ?_, ?_, ?_⟩
  · simp [RedisPersistency.save, orUuid, h]
  · simp only [PostgresPersistency.save, orUuid, h]
    split <;> rfl
  · simp only [SupabasePersistency.save, orUuid, h]
    split <;> rfl
  · simp only [RedisPersistency.save, orUuid, h]
    exact getKey_setKey_self _ _ _

/-- C4 counterexample: the document `{id: "", name: "n"}` has a pre-set id
(the empty string), yet `save` does not return that exact id unchanged: the
JS test `doc.id || uuidv4()` treats the empty string as missing and the
returned record carries the generated id `"uuid-0"` instead. -/
theorem c4_counterexample :
    (RedisPersistency.save 0 ⟨some "", [("name", .jstr "n")]⟩ ⟨[]⟩).calls
        = cbOk ⟨some "uuid-0", [("name", .jstr "n")]⟩
    ∧ ("uuid-0" : String) ≠ "" :=
  ⟨rfl, by decide⟩

/-- C4 (amended): for every document whose id is absent or empty (JS-falsy),
`save` on every adapter assigns a freshly generated non-empty identifier to
the document and the returned record carries it (for the relational and
document backends, whenever the insert of the fresh id succeeds); for every
document with a pre-set non-empty id, `save` persists and returns that exact
id unchanged on every adapter. -/
theorem c4_save_id_assignment
    (doc : Doc) (gen now : Nat)
    (str : RedisPersistency.Store) (stp : PostgresPersistency.Store)
    (sts : SupabasePersistency.Store) :
    (idTruthy doc.id = false →
      (RedisPersistency.save gen doc str).calls
          = cbOk { doc with id := some (uuidv4 gen) }
      ∧ uuidv4 gen ≠ ""
      ∧ (PostgresPersistency.save gen now doc stp).callerDoc.id
          = some (uuidv4 gen)
      ∧ ((stp.rows.any fun r => r.id = uuidv4 gen) = false →
          (PostgresPersistency.save gen now doc stp).calls
            = cbOk (some ⟨uuidv4 gen, { doc with id := some (uuidv4 gen) }, now, now⟩))
      ∧ (SupabasePersistency.save gen now doc sts).callerDoc.id
          = some (uuidv4 gen)
      ∧ ((sts.rows.any fun r => r.id = uuidv4 gen) = false →
          (SupabasePersistency.save gen now doc sts).calls
            = cbOk (some ⟨uuidv4 gen, { doc with id := some (uuidv4 gen) }, now, now⟩)))
    ∧ (∀ s : String, doc.id = some s → s ≠ "" →
      (RedisPersistency.save gen doc str).calls = cbOk doc
      ∧ (PostgresPersistency.save gen now doc stp).callerDoc.id = some s
      ∧ (SupabasePersistency.save gen now doc sts).callerDoc.id = some s
      ∧ ((stp.rows.any fun r => r.id = s) = false →
          (PostgresPersistency.save gen now doc stp).calls
            = cbOk (some ⟨s, doc, now, now⟩))
      ∧ ((sts.rows.any fun r => r.id = s) = false →
          (SupabasePersistency.save gen now doc sts).calls
            = cbOk (some ⟨s, doc, now, now⟩))) := by
  obtain ⟨i, fs⟩ := doc
  constructor
  · intro ht
    have hor : orUuid i gen = uuidv4 gen := by
      rcases i with _ | s
      · rfl
      · have hs : s = "" := by
          by_contra hne
          simp [idTruthy, hne] at ht
        simp [orUuid, hs]
    refine ⟨?_, uuidv4_ne_empty gen, ?_, ?_, ?_, ?_⟩
    · simp [RedisPersistency.save, hor]
    · simp only [PostgresPersistency.save, hor]
      split <;> rfl
    · intro hany
      simp [PostgresPersistency.save, hor, hany]
    · simp only [SupabasePersistency.save, hor]
      split <;> rfl
    · intro hany
      simp [SupabasePersistency.save, hor, hany]
  · rintro s rfl hne
    refine ⟨?_, ?_, ?_, ?_, ?_⟩
    · simp [RedisPersistency.save, orUuid, hne]
    · simp [PostgresPersistency.save, orUuid, hne]
      split <;> rfl
    · simp [SupabasePersistency.save, orUuid, hne]
      split <;> rfl
    · intro hany
      simp [PostgresPersistency.save, orUuid, hne, hany]
    · intro hany
      simp [SupabasePersistency.save, orUuid, hne, hany]

/-- C4 witness: the amended theorem applied to the id-less document `{}` on
empty stores for all three adapters, and to the document `{id: "fixed"}`. -/
theorem c4_save_id_assignment_witness :
    ((RedisPersistency.save 0 ⟨none, []⟩ ⟨[]⟩).calls = cbOk ⟨some "uuid-0", []⟩
      ∧ (PostgresPersistency.save 0 3 ⟨none, []⟩ ⟨[]⟩).calls
          = cbOk (some ⟨"uuid-0", ⟨some "uuid-0", []⟩, 3, 3⟩)
      ∧ (SupabasePersistency.save 0 3 ⟨none, []⟩ ⟨[]⟩).calls
          = cbOk (some ⟨"uuid-0", ⟨some "uuid-0", []⟩, 3, 3⟩)
      ∧ uuidv4 0 ≠ "")
    ∧ (RedisPersistency.save 0 ⟨some "fixed", []⟩ ⟨[]⟩).calls
        = cbOk ⟨some "fixed", []⟩ := by
  have h1 := (c4_save_id_assignment ⟨none, []⟩ 0 3 ⟨[]⟩ ⟨[]⟩ ⟨[]⟩).1 rfl
  refine ⟨⟨h1.1, h1.2.2.2.1 rfl, h1.2.2.2.2.2 rfl, h1.2.1⟩, ?_⟩
  exact ((c4_save_id_assignment ⟨some "fixed", []⟩ 0 0 ⟨[]⟩ ⟨[]⟩ ⟨[]⟩).2
    "fixed" rfl (by decide)).1

/-- C2 counterexample: the document `{id: "x"}` has a present id that is not
stored (empty table), yet `update` on the Postgres adapter (and likewise the
Supabase adapter) does not fail with `StoreError`: the `UPDATE ... WHERE id`
statement matches zero rows and completes without error, and the callback
receives `undefined` as its result. -/
theorem c2_counterexample :
    (PostgresPersistency.update 5 ⟨some "x", []⟩ ⟨[]⟩).1 = cbOk none
    ∧ cbHasErr (PostgresPersistency.update 5 ⟨some "x", []⟩ ⟨[]⟩).1 = false
    ∧ (SupabasePersistency.update 5 ⟨some "x", []⟩ ⟨[]⟩).1 = cbOk none
    ∧ cbHasErr (SupabasePersistency.update 5 ⟨some "x", []⟩ ⟨[]⟩).1 = false :=
  ⟨rfl, rfl, rfl, rfl⟩

/-- C2 (amended): for every document whose (non-empty) id is present but not
stored, `update` on the relational (Postgres) and document (Supabase)
adapters completes without error, updating zero rows, leaving the table
unchanged and passing an absent record to the callback; `update` on the
key-value (Redis) adapter succeeds by silently upserting the document. -/
theorem c2_update_missing_id
    (doc : Doc) (s : String) (now : Nat)
    (str : RedisPersistency.Store) (stp : PostgresPersistency.Store)
    (sts : SupabasePersistency.Store)
    (hid : doc.id = some s) (hne : s ≠ "")
    (hp : ∀ r ∈ stp.rows, r.id ≠ s) (hs : ∀ r ∈ sts.rows, r.id ≠ s) :
    (PostgresPersistency.update now doc stp).1 = cbOk none
    ∧ (PostgresPersistency.update now doc stp).2.rows = stp.rows
    ∧ (SupabasePersistency.update now doc sts).1 = cbOk none
    ∧ (SupabasePersistency.update now doc sts).2.rows = sts.rows
    ∧ (RedisPersistency.update doc str).1 = cbOk doc
    ∧ RedisPersistency.getKey (RedisPersistency.update doc str).2.entries
        ("process_instance:" ++ s) = some doc := by
  have hpmap : (stp.rows.map fun r =>
      if r.id = s then { r with doc := doc, updated_at := now } else r) = stp.rows := by
    rw [List.map_congr_left (g := id) fun r hr => by simp [hp r hr]]
    exact List.map_id _
  have hsmap : (sts.rows.map fun r =>
      if r.id = s then { r with doc := doc, updated_at := now } else r) = sts.rows := by
    rw [List.map_congr_left (g := id) fun r hr => by simp [hs r hr]]
    exact List.map_id _
  have hpfil : stp.rows.filter (fun r => r.id = s) = [] :=
    List.filter_eq_nil_iff.mpr (by simpa using hp)
  have hsfil : sts.rows.filter (fun r => r.id = s) = [] :=
    List.filter_eq_nil_iff.mpr (by simpa using hs)
  refine ⟨?_, ?_, ?_, ?_, ?_, ?_⟩
  · simp [PostgresPersistency.update, hid, hne, hpmap, hpfil]
  · simp [PostgresPersistency.update, hid, hne, hpmap]
  · simp [SupabasePersistency.update, hid, hne, hsmap, hsfil]
  · simp [SupabasePersistency.update, hid, hne, hsmap]
  · simp [RedisPersistency.update, hid, hne]
  · simp only [RedisPersistency.update, hid]
    simp only [hne, if_neg]
    exact getKey_setKey_self _ _ _

/-- C2 witness: the amended theorem applied to the document `{id: "x"}` on
empty stores. -/
theorem c2_update_missing_id_witness :
    (PostgresPersistency.update 5 ⟨some "x", [("k", .jnum 1)]⟩ ⟨[]⟩).1 = cbOk none
    ∧ (RedisPersistency.update ⟨some "x", [("k", .jnum 1)]⟩ ⟨[]⟩).1
        = cbOk ⟨some "x", [("k", .jnum 1)]⟩ := by
  have h := c2_update_missing_id ⟨some "x", [("k", .jnum 1)]⟩ "x" 5 ⟨[]⟩ ⟨[]⟩ ⟨[]⟩
    rfl (by decide) (by intro r hr; cases hr) (by intro r hr; cases hr)
  exact ⟨h.1, h.2.2.2.2.1⟩

/-- C3 counterexample: for the document `D = {id: "", name: "n"}` — which
does not lack an id, so the claim requires the round-tripped body to
deep-equal `D` itself — `save` silently replaces the falsy empty-string id
with the generated `"uuid-0"`, and `get` on the returned record's id yields a
body that differs from `D`. -/
theorem c3_counterexample :
    (RedisPersistency.save 0 ⟨some "", [("name", .jstr "n")]⟩ ⟨[]⟩).calls
        = cbOk ⟨some "uuid-0", [("name", .jstr "n")]⟩
    ∧ (RedisPersistency.get "uuid-0"
        (RedisPersistency.save 0 ⟨some "", [("name", .jstr "n")]⟩ ⟨[]⟩).store).1
        = cbOk (some ⟨some "uuid-0", [("name", .jstr "n")]⟩)
    ∧ (⟨some "uuid-0", [("name", .jstr "n")]⟩ : Doc)
        ≠ ⟨some "", [("name", .jstr "n")]⟩ := by
  refine ⟨rfl, rfl, ?_⟩
  intro h
  have h2 := congrArg Doc.id h
  simp at h2

/-- C3 (amended): round-trip law — for every document D, `get` on the id of
the record returned by a successful `save(D)` yields a record whose document
body deep-equals D with the generated id injected whenever D's id was absent
or empty (JS-falsy); the key-value save always succeeds, the relational and
document saves succeed whenever the id is fresh. -/
theorem c3_roundtrip
    (doc : Doc) (gen now : Nat)
    (str : RedisPersistency.Store) (stp : PostgresPersistency.Store)
    (sts : SupabasePersistency.Store) :
    ((RedisPersistency.save gen doc str).calls
        = cbOk { doc with id := some (orUuid doc.id gen) }
      ∧ (RedisPersistency.get (orUuid doc.id gen)
          (RedisPersistency.save gen doc str).store).1
        = cbOk (some { doc with id := some (orUuid doc.id gen) }))
    ∧ (∀ row : PostgresPersistency.Row,
        (PostgresPersistency.save gen now doc stp).calls = cbOk (some row) →
        (PostgresPersistency.get row.id
            (PostgresPersistency.save gen now doc stp).store).1
          = cbOk (some row)
        ∧ row.doc = { doc with id := some (orUuid doc.id gen) })
    ∧ (∀ row : SupabasePersistency.Row,
        (SupabasePersistency.save gen now doc sts).calls = cbOk (some row) →
        (SupabasePersistency.get row.id
            (SupabasePersistency.save gen now doc sts).store).1
          = cbOk (some row)
        ∧ row.doc = { doc with id := some (orUuid doc.id gen) }) := by
  refine ⟨⟨?_, ?_⟩, ?_, ?_⟩
  · simp [RedisPersistency.save]
  · simp only [RedisPersistency.save, RedisPersistency.get]
    rw [getKey_setKey_self]
  · intro row hrow
    simp only [PostgresPersistency.save] at hrow
    by_cases hany : (stp.rows.any fun r => r.id = orUuid doc.id gen) = true
    · rw [if_pos hany] at hrow
      exact absurd hrow (cbErr_ne_cbOk _ _)
    · rw [if_neg hany] at hrow
      have hr := cbOk_inj hrow
      simp only [List.head?_cons, Option.some.injEq] at hr
      subst hr
      have hany' : (stp.rows.any fun r => r.id = orUuid doc.id gen) = false := by
        simpa using hany
      have hfil : stp.rows.filter (fun r => r.id = orUuid doc.id gen) = [] :=
        List.filter_eq_nil_iff.mpr (by simpa using List.any_eq_false.mp hany')
      refine ⟨?_, rfl⟩
      simp [PostgresPersistency.save, PostgresPersistency.get, hany,
        List.filter_append, hfil]
  · intro row hrow
    simp only [SupabasePersistency.save] at hrow
    by_cases hany : (sts.rows.any fun r => r.id = orUuid doc.id gen) = true
    · rw [if_pos hany] at hrow
      exact absurd hrow (cbErr_ne_cbOk _ _)
    · rw [if_neg hany] at hrow
      have hr := cbOk_inj hrow
      simp only [List.head?_cons, Option.some.injEq] at hr
      subst hr
      have hany' : (sts.rows.any fun r => r.id = orUuid doc.id gen) = false := by
        simpa using hany
      have hfil : sts.rows.filter (fun r => r.id = orUuid doc.id gen) = [] :=
        List.filter_eq_nil_iff.mpr (by simpa using List.any_eq_false.mp hany')
      refine ⟨?_, rfl⟩
      simp [SupabasePersistency.save, SupabasePersistency.get, hany,
        List.filter_append, hfil]

/-- C3 witness: the amended theorem applied to the id-less document
`{name: "order-1"}` on empty stores, for all three adapters. -/
theorem c3_roundtrip_witness :
    (RedisPersistency.get "uuid-0"
        (RedisPersistency.save 0 ⟨none, [("name", .jstr "order-1")]⟩ ⟨[]⟩).store).1
      = cbOk (some ⟨some "uuid-0", [("name", .jstr "order-1")]⟩)
    ∧ (PostgresPersistency.get "uuid-0"
        (PostgresPersistency.save 0 7 ⟨none, [("name", .jstr "order-1")]⟩ ⟨[]⟩).store).1
      = cbOk (some ⟨"uuid-0", ⟨some "uuid-0", [("name", .jstr "order-1")]⟩, 7, 7⟩) := by
  have h := c3_roundtrip ⟨none, [("name", .jstr "order-1")]⟩ 0 7 ⟨[]⟩ ⟨[]⟩ ⟨[]⟩
  refine ⟨h.1.2, ?_⟩
  exact (h.2.1 ⟨"uuid-0", ⟨some "uuid-0", [("name", .jstr "order-1")]⟩, 7, 7⟩ rfl).1

/-- C9 counterexample: saving `{name: "order-1"}` in the key-value (Redis)
backend stores exactly the document (with the generated id) and nothing else:
the stored record carries no `created_at` and no `updated_at` field — the
adapter maintains no client-side timestamps, so `update` has no last-updated
timestamp to refresh. -/
theorem c9_counterexample :
    RedisPersistency.getKey
        (RedisPersistency.save 0 ⟨none, [("name", .jstr "order-1")]⟩ ⟨[]⟩).store.entries
        "process_instance:uuid-0"
      = some ⟨some "uuid-0", [("name", .jstr "order-1")]⟩
    ∧ (⟨some "uuid-0", [("name", .jstr "order-1")]⟩ : Doc).field "created_at" = none
    ∧ (⟨some "uuid-0", [("name", .jstr "order-1")]⟩ : Doc).field "updated_at" = none :=
  ⟨rfl, rfl, rfl⟩

/-- C9 (amended): in the key-value (Redis) backend every stored record pairs
the identifier (in the namespaced key and the injected `id` field) with the
document body alone — the adapter maintains no creation or last-update
timestamps, its body fields are exactly the caller's — and `update` replaces
the stored body wholesale with the caller's document, refreshing nothing. -/
theorem c9_redis_stores_document_only
    (doc : Doc) (gen : Nat) (st : RedisPersistency.Store) :
    RedisPersistency.getKey (RedisPersistency.save gen doc st).store.entries
        ("process_instance:" ++ orUuid doc.id gen)
      = some { doc with id := some (orUuid doc.id gen) }
    ∧ ({ doc with id := some (orUuid doc.id gen) } : Doc).fields = doc.fields
    ∧ (∀ s : String, doc.id = some s → s ≠ "" →
        RedisPersistency.getKey (RedisPersistency.update doc st).2.entries
            ("process_instance:" ++ s)
          = some doc) := by
  refine ⟨?_, rfl, ?_⟩
  · simp only [RedisPersistency.save]
    exact getKey_setKey_self _ _ _
  · intro s hid hne
    simp only [RedisPersistency.update, hid]
    simp only [hne, if_neg]
    exact getKey_setKey_self _ _ _

/-- C9 witness: the amended theorem applied to the document
`{id: "a", name: "v"}` on the empty store. -/
theorem c9_redis_stores_document_only_witness :
    RedisPersistency.getKey
        (RedisPersistency.update ⟨some "a", [("name", .jstr "v")]⟩ ⟨[]⟩).2.entries
        "process_instance:a"
      = some ⟨some "a", [("name", .jstr "v")]⟩ :=
  (c9_redis_stores_document_only ⟨some "a", [("name", .jstr "v")]⟩ 0 ⟨[]⟩).2.2
    "a" rfl (by decide)

/-- C8: every adapter operation (`save`, `get`, `update`, `remove`, `list`)
on every adapter invokes its completion callback exactly once, carrying
either a result or an error but never both and never neither. -/
theorem c8_callback_exactly_once
    (gen now : Nat) (doc : Doc) (i : String)
    (str : RedisPersistency.Store) (stp : PostgresPersistency.Store)
    (sts : SupabasePersistency.Store) :
    oneShot (RedisPersistency.save gen doc str).calls
    ∧ oneShot (RedisPersistency.get i str).1
    ∧ oneShot (RedisPersistency.update doc str).1
    ∧ oneShot (RedisPersistency.remove i str).1
    ∧ oneShot (RedisPersistency.list str).1
    ∧ oneShot (PostgresPersistency.save gen now doc stp).calls
    ∧ oneShot (PostgresPersistency.get i stp).1
    ∧ oneShot (PostgresPersistency.update now doc stp).1
    ∧ oneShot (PostgresPersistency.remove i stp).1
    ∧ oneShot (PostgresPersistency.list stp).1
    ∧ oneShot (SupabasePersistency.save gen now doc sts).calls
    ∧ oneShot (SupabasePersistency.get i sts).1
    ∧ oneShot (SupabasePersistency.update now doc sts).1
    ∧ oneShot (SupabasePersistency.remove i sts).1
    ∧ oneShot (SupabasePersistency.list sts).1 := by
  refine ⟨oneShot_cbOk _, ?_, ?_, oneShot_cbOk _, ?_,
    ?_, oneShot_cbOk _, ?_, oneShot_cbOk _, oneShot_cbOk _,
    ?_, oneShot_cbOk _, ?_, oneShot_cbOk _, oneShot_cbOk _⟩
  · cases h : RedisPersistency.getKey str.entries ("process_instance:" ++ i) <;>
      simp only [RedisPersistency.get, h] <;> exact oneShot_cbOk _
  · rcases hid : doc.id with _ | s
    · simp only [RedisPersistency.update, hid]
      exact oneShot_cbErr _
    · by_cases hs : s = ""
      · simp only [RedisPersistency.update, hid, if_pos hs]
        exact oneShot_cbErr _
      · simp only [RedisPersistency.update, hid, if_neg hs]
        exact oneShot_cbOk _
  · by_cases hk : (str.entries.map Prod.fst).length = 0
    · simp only [RedisPersistency.list, if_pos hk]
      exact oneShot_cbOk _
    · simp only [RedisPersistency.list, if_neg hk]
      exact oneShot_cbOk _
  · simp only [PostgresPersistency.save]
    split
    · exact oneShot_cbErr _
    · exact oneShot_cbOk _
  · rcases hid : doc.id with _ | s
    · simp only [PostgresPersistency.update, hid]
      exact oneShot_cbErr _
    · by_cases hs : s = ""
      · simp only [PostgresPersistency.update, hid, if_pos hs]
        exact oneShot_cbErr _
      · simp only [PostgresPersistency.update, hid, if_neg hs]
        exact oneShot_cbOk _
  · simp only [SupabasePersistency.save]
    split
    · exact oneShot_cbErr _
    · exact oneShot_cbOk _
  · rcases hid : doc.id with _ | s
    · simp only [SupabasePersistency.update, hid]
      exact oneShot_cbErr _
    · by_cases hs : s = ""
      · simp only [SupabasePersistency.update, hid, if_pos hs]
        exact oneShot_cbErr _
      · simp only [SupabasePersistency.update, hid, if_neg hs]
        exact oneShot_cbOk _

/-- C10 witness: the theorem applied to the id-less document
`{name: "order-1"}` on empty stores. -/
theorem c10_save_mutates_caller_doc_witness :
    (RedisPersistency.save 0 ⟨none, [("name", .jstr "order-1")]⟩ ⟨[]⟩).callerDoc
      = ⟨some "uuid-0", [("name", .jstr "order-1")]⟩ :=
  (c10_save_mutates_caller_doc ⟨none, [("name", .jstr "order-1")]⟩ rfl 0 0
    ⟨[]⟩ ⟨[]⟩ ⟨[]⟩).1

end Bpmn
